import Mathlib

/-!
Verification of the outlier-detection service (`src/route.py` and the
engine it invokes) against its natural-language specification.

The development has two layers:

* `Route`: a shallow embedding of the web-layer code that is present in
  `src/route.py` — the CSV-artifact fallback parser of the `/outlierv1`
  handler (lines 136-166), the response assembly (lines 103-134), the
  legacy `/outlier` delegation (lines 223-229) and the `/download`
  handler (lines 232-257).  Python strings are modelled as Lean
  `String`s, Python dictionaries as association lists, `str.lower()` as
  an ASCII lowercase map (the only cased tokens compared are ASCII), and
  `os.path.exists` as an arbitrary predicate on path strings.

* `Engine`: the `MarginBot` rule engine (`outliers` / `explain_summary`).
  Its source file `v1/core.py` is not part of the excerpt, so each
  definition in that layer is modelled from the specification (§3, §4.2,
  §4.3) and says so in its doc comment.  Numbers are modelled as exact
  rationals; the z-score, whose definition involves a square root, is
  carried as its square `zSq = (delta - mean)^2 / variance`, which is an
  exact rational and determines every comparison the engine makes
  (`|z| ≥ t ↔ zSq ≥ t^2` for `t ≥ 0`, and `|z₁| ≥ |z₂| ↔ zSq₁ ≥ zSq₂`).
-/

namespace Route

/-- ASCII lowercase on a single character; model of what Python's
`str.lower()` does on the characters that can possibly match one of the
compared tokens (`"true"`, `"1"`, `"yes"`, `"✓"`, the CSV header names). -/
def lowerChar (c : Char) : Char :=
  if 'A' ≤ c ∧ c ≤ 'Z' then Char.ofNat (c.toNat + 32) else c

/-- Model of Python `str.lower()`. -/
def pyLower (s : String) : String := ⟨s.data.map lowerChar⟩

/-- A CSV row as produced by `csv.DictReader`: an association list from
column name to raw cell text (column names are distinct). -/
def CsvRow : Type := List (String × String)

/-- Model of Python `dict.get(k)` on a `CsvRow`: `some` of the value when
the key is present, otherwise `none`. -/
def rowGet (row : CsvRow) (k : String) : Option String :=
  (row.find? (fun kv => kv.1 == k)).map (fun kv => kv.2)

/-- Model of Python `dict.get(k, d)`. -/
def rowGetD (row : CsvRow) (k d : String) : String := (rowGet row k).getD d

/-- The truthy-token list of `route.py` lines 148 and 162:
`['true', '1', 'yes', '✓']`. -/
def truthyTokens : List String := ["true", "1", "yes", "✓"]

/-- FLAG-cell parsing, `route.py` line 162 (and line 148):
`tok.lower() in ['true', '1', 'yes', '✓']`. -/
def parseFlagTok (tok : String) : Bool := truthyTokens.contains (pyLower tok)

/-- Python truthiness of the value of `row.get(k1, row.get(k2))` followed
by the code's `if <value>` guard: the resolved raw token, or `none` when
both keys are absent or the first present key holds the empty string
(`route.py` lines 157-161 resolve every numeric cell this way and convert
the token with `float(...)` afterwards; the uniform conversion is left at
the token level, so the fields below carry the resolved raw token). -/
def resolve2 (row : CsvRow) (k1 k2 : String) : Option String :=
  match (rowGet row k1).orElse (fun _ => rowGet row k2) with
  | some v => if v == "" then none else some v
  | none => none

/-- Single-key variant for `APPLIED_t1` / `APPLIED_t` (lines 157-158). -/
def resolve1 (row : CsvRow) (k : String) : Option String :=
  match rowGet row k with
  | some v => if v == "" then none else some v
  | none => none

/-- One entry of the `top_outliers` array built from the artifact
(`route.py` lines 155-163): the resolved raw token of each numeric field
(`float` conversion deferred, see `resolve2`) plus the parsed flag. -/
structure OutRow where
  header : String
  applied_t1 : Option String
  applied_t : Option String
  delta : Option String
  pct_change : Option String
  z_score : Option String
  flag : Bool
deriving DecidableEq, Repr

/-- The per-row artifact parser of `route.py` lines 155-163:
`row.get('HEADER', row.get('header_account_id', 'N/A'))` for the header,
`row.get('Δ', row.get('delta'))` etc. for the numeric fields (kept as the
resolved token), and the truthy-token parse of
`row.get('FLAG', row.get('flag', 'false'))`. -/
def parseOutlierRow (row : CsvRow) : OutRow :=
  { header := rowGetD row "HEADER" (rowGetD row "header_account_id" "N/A")
    applied_t1 := resolve1 row "APPLIED_t1"
    applied_t := resolve1 row "APPLIED_t"
    delta := resolve2 row "Δ" "delta"
    pct_change := resolve2 row "%Δ" "pct_change"
    z_score := resolve2 row "Z" "z_score"
    flag := parseFlagTok ((rowGet row "FLAG").getD (rowGetD row "flag" "false")) }

/-- The artifact-level flagged-row count of `route.py` line 148:
`sum(1 for row in rows if row.get('FLAG', '').lower() in [...])`. -/
def artifactFlaggedCount (rows : List CsvRow) : Nat :=
  (rows.filter (fun row => parseFlagTok (rowGetD row "FLAG" ""))).length

/-- The response fields of `/outlierv1` that are computed per run
(`flagged_count`, `total_count`, `dates_analyzed`, `top_outliers`); the
constant echo fields (`success`, `mode`, `center`, `output_file`,
`action`, `csv_url`) carry no evaluation data and are omitted. -/
structure Response where
  flagged_count : Nat
  total_count : Nat
  dates_analyzed : String
  top_outliers : List OutRow
deriving DecidableEq, Repr

/-- The in-memory result of `bot.outliers(...)` as `route.py` receives it:
a dict with the four summary fields (absent keys default to `0` / `''` /
`[]` via `.get`, lines 114-119), a bare list of row dicts (lines 120-134),
or any other shape (neither branch taken). -/
inductive BotResult where
  | dict (flagged_count total_count : Nat) (dates_analyzed : String)
      (top_outliers : List OutRow)
  | list (rows : List OutRow)
  | other
deriving DecidableEq

/-- Response assembly before the artifact fallback, `route.py` lines
103-134: the dict branch copies the four fields, the list branch takes the
first `top_n` entries and counts flags over the full list, any other shape
leaves the fields unset (modelled as the falsy defaults `0` / `''` / `[]`,
which is exactly how `response_data.get(...)` reads an absent key). -/
def inMemoryResponse (result : BotResult) (top_n : Nat) : Response :=
  match result with
  | .dict fc tc da tops =>
      { flagged_count := fc, total_count := tc, dates_analyzed := da
        top_outliers := tops }
  | .list rows =>
      { flagged_count := (rows.filter (fun r => r.flag)).length
        total_count := rows.length
        dates_analyzed := ""
        top_outliers := rows.take top_n }
  | .other =>
      { flagged_count := 0, total_count := 0, dates_analyzed := ""
        top_outliers := [] }

/-- The artifact fallback of `route.py` lines 136-166: when `out_csv`
exists, each of `total_count`, `flagged_count` and `top_outliers` is
re-derived from the parsed CSV whenever its current value is Python-falsy
(`0`, `0`, `[]` respectively). -/
def applyArtifact (resp : Response) (rows : List CsvRow) (top_n : Nat) :
    Response :=
  let r1 := if resp.total_count = 0 then
      { resp with total_count := rows.length } else resp
  let r2 := if r1.flagged_count = 0 then
      { r1 with flagged_count := artifactFlaggedCount rows } else r1
  if r2.top_outliers = [] then
    { r2 with top_outliers := (rows.take top_n).map parseOutlierRow }
  else r2

/-- Full response assembly of the POST branch of `/outlierv1`
(`route.py` lines 103-166): in-memory assembly, then the artifact
fallback when the output CSV exists (`artifact = some rows`). -/
def buildResponse (result : BotResult) (artifact : Option (List CsvRow))
    (top_n : Nat) : Response :=
  match artifact with
  | some rows => applyArtifact (inMemoryResponse result top_n) rows top_n
  | none => inMemoryResponse result top_n

/-- HTTP method of a request. -/
inductive Method where
  | get
  | post
deriving DecidableEq

/-- One invocation of the outlier endpoints: the request data together
with the environment the handler observes (whether the input CSV exists,
what `bot.outliers` returns, and the artifact rows when the output CSV
exists after the run). -/
structure Ctx where
  method : Method
  mode : String
  center : String
  action : String
  top_n : Nat
  csvExists : Bool
  botResult : BotResult
  artifact : Option (List CsvRow)

/-- The distinct outcomes of the `/outlierv1` handler: the GET status
message, the 400 missing-CSV error, the 501 AI-mode stub, the 400
invalid-mode error, or a 200 JSON response. -/
inductive RouteReply where
  | readyStatus
  | csvNotFound
  | aiNotImplemented
  | invalidMode (m : String)
  | ok (r : Response)
deriving DecidableEq

/-- The `/outlierv1` handler (`route.py` lines 32-182): GET returns the
ready status; POST checks the input CSV, dispatches on `mode` (`rules`
runs the bot and assembles the response, `ai` is unimplemented, anything
else is invalid). -/
def outlierv1 (ctx : Ctx) : RouteReply :=
  match ctx.method with
  | .get => .readyStatus
  | .post =>
      if ¬ ctx.csvExists then .csvNotFound
      else if ctx.mode == "rules" then
        .ok (buildResponse ctx.botResult ctx.artifact ctx.top_n)
      else if ctx.mode == "ai" then .aiNotImplemented
      else .invalidMode ctx.mode

/-- The legacy `/outlier` handler (`route.py` lines 223-229): the body is
exactly `return outlierv1()`. -/
def outlier (ctx : Ctx) : RouteReply := outlierv1 ctx

/-- Model of `os.path.basename` on POSIX: the part of the path after the
last `/` (empty when the path ends in `/`). -/
def basename (s : String) : String :=
  ⟨s.data.foldl (fun acc c => if c = '/' then [] else acc ++ [c]) []⟩

/-- Outcome of the `/download/<filename>` handler: the path of the file
actually served, the explicit 404 JSON reply, or the 500 JSON reply from
the `except` clause. -/
inductive DownloadReply where
  | file (path : String)
  | notFound
  | internalError
deriving DecidableEq, Repr

/-- Model of `flask.send_from_directory dir name` per its documented
contract: it serves `dir/name` only when `name` is a safe relative path
(non-empty, no separator, not a parent or current-directory reference)
that exists; otherwise it raises, which `route.py`'s `except` clause turns
into the 500 reply. The filesystem is an arbitrary existence predicate on
path strings. -/
def sendFromDirectory (fs : String → Bool) (dir name : String) :
    DownloadReply :=
  if name = "" ∨ name = "." ∨ name = ".." ∨ name.data.contains '/' then
    .internalError
  else if fs (dir ++ "/" ++ name) then .file (dir ++ "/" ++ name)
  else .internalError

/-- The `/download/<filename>` handler (`route.py` lines 232-257):
`safe_filename = os.path.basename(filename)`, the path is joined under
the `out` directory, a missing path yields the 404 reply, and otherwise
the file is served via `send_from_directory`. -/
def download_file (fs : String → Bool) (filename : String) :
    DownloadReply :=
  let safe := basename filename
  let path := "out" ++ "/" ++ safe
  if ¬ fs path then .notFound
  else sendFromDirectory fs "out" safe

/-- What it means for a served path to lie inside the `out` directory:
it is `out/` followed by a single non-empty path component that is not a
parent or current-directory reference. -/
def insideOutDir (p : String) : Prop :=
  ∃ b : String, p = "out" ++ "/" ++ b ∧ b ≠ "" ∧ b ≠ "." ∧ b ≠ ".." ∧
    ¬ b.data.contains '/'

end Route

namespace Engine

/-- Modelled from the spec: the `Record` data model of §3 as the Loader
hands it to the Rule Evaluator (`v1/core.py` is not in the excerpt).
One (center, header) observation of a single date cohort; the derived
fields are recomputed from `applied_t1` / `applied_t` and the cohort
(§3 invariant), so only the inputs are stored. -/
structure Record where
  center : String
  header : String
  applied_t1 : ℚ
  applied_t : ℚ
deriving DecidableEq, Repr

/-- Modelled from the spec: `delta = applied_t − applied_t1` (§3). -/
def delta (r : Record) : ℚ := r.applied_t - r.applied_t1

/-- Modelled from the spec: `pct_change = delta / applied_t1` when
`applied_t1 ≠ 0`, else undefined — never divide by zero (§3). -/
def pctChange (r : Record) : Option ℚ :=
  if r.applied_t1 = 0 then none else some (delta r / r.applied_t1)

/-- Mean of a list of rationals (0 on the empty list). -/
def mean (xs : List ℚ) : ℚ := xs.sum / xs.length

/-- Population variance of a list of rationals. -/
def popVar (xs : List ℚ) : ℚ :=
  (xs.map (fun x => (x - mean xs) ^ 2)).sum / xs.length

/-- The deltas of a cohort (the peer population of §3: all records
sharing the center and date of the row). -/
def cohortDeltas (cohort : List Record) : List ℚ := cohort.map delta

/-- Modelled from the spec: the square of the z-score of §3,
`z = (delta − mean) / stddev` over the cohort deltas, undefined when the
population has fewer than 2 members or zero stddev.  The square
`(delta − mean)^2 / variance` is an exact rational and determines every
comparison made on the z-score: `|z| ≥ t ↔ zSq ≥ t^2` for `t ≥ 0`, and
`|z₁| ≥ |z₂| ↔ zSq₁ ≥ zSq₂` within one cohort. -/
def zSq (cohort : List Record) (r : Record) : Option ℚ :=
  let ds := cohortDeltas cohort
  if 2 ≤ ds.length ∧ popVar ds ≠ 0 then
    some ((delta r - mean ds) ^ 2 / popVar ds)
  else none

/-- Modelled from the spec: the absolute-delta criterion of §4.2,
`|delta| ≥ abs_threshold`. -/
def absRule (r : Record) (absThr : ℚ) : Bool := |delta r| ≥ absThr

/-- Modelled from the spec: the percentage criterion of §4.2,
`|pct_change| ≥ pct_threshold`, contributing `false` when `pct_change`
is undefined. -/
def pctRule (r : Record) (pctThr : ℚ) : Bool :=
  match pctChange r with
  | some v => |v| ≥ pctThr
  | none => false

/-- Modelled from the spec: the z-score criterion of §4.2,
`|z_score| ≥ z_threshold`, stated on the squared carrier
(`zSq ≥ z_threshold^2`), contributing `false` when the z-score is
undefined. -/
def zRule (cohort : List Record) (r : Record) (zThr : ℚ) : Bool :=
  match zSq cohort r with
  | some q => q ≥ zThr ^ 2
  | none => false

/-- Modelled from the spec: the flag rule of §4.2 — the logical OR of the
three criteria, any one of which suffices. -/
def flagOf (cohort : List Record) (r : Record) (absThr pctThr zThr : ℚ) :
    Bool :=
  absRule r absThr || pctRule r pctThr || zRule cohort r zThr

/-- Strict ranking order of §4.2 on flagged rows of a single cohort:
descending `|z_score|` (undefined z-scores last), ties broken by
descending `|delta|`.  `|z₁| > |z₂|` is `zSq₁ > zSq₂` on the squared
carrier. -/
def rankBefore (cohort : List Record) (r1 r2 : Record) : Bool :=
  match zSq cohort r1, zSq cohort r2 with
  | some a, some b => if a = b then |delta r1| > |delta r2| else a > b
  | some _, none => true
  | none, some _ => false
  | none, none => |delta r1| > |delta r2|

/-- Stable insertion: `x` is placed after every element that strictly
precedes it and before everything else, so elements the order does not
separate keep their original relative position. -/
def rankInsert (lt : Record → Record → Bool) (x : Record) :
    List Record → List Record
  | [] => [x]
  | y :: ys => if lt y x then y :: rankInsert lt x ys else x :: y :: ys

/-- Stable insertion sort by the strict order `lt` (§4.2 ranking:
"stable otherwise — original order preserved for exact ties"). -/
def rankSort (lt : Record → Record → Bool) : List Record → List Record
  | [] => []
  | x :: xs => rankInsert lt x (rankSort lt xs)

/-- Modelled from the spec: the center filter of §4.2 (case-sensitive
exact match); the filtered rows are also the z-score cohort. -/
def centerRows (rows : List Record) (center : String) : List Record :=
  rows.filter (fun r => r.center == center)

/-- Modelled from the spec: the flagged subset of the full (untruncated)
evaluation of §4.2. -/
def evaluateFlagged (rows : List Record) (center : String)
    (absThr pctThr zThr : ℚ) : List Record :=
  let cohort := centerRows rows center
  cohort.filter (fun r => flagOf cohort r absThr pctThr zThr)

/-- Modelled from the spec: the Evaluation Result of §3/§6 —
`top_outliers` (ranked flagged rows truncated to `top_n`) plus the
aggregate counts over the full untruncated evaluation. -/
structure EvalResult where
  top_outliers : List Record
  flagged_count : Nat
  total_count : Nat
deriving DecidableEq, Repr

/-- Modelled from the spec: `evaluate` of §4.2 — filter to the center,
flag by the three-criterion OR, rank, truncate to `top_n`, count over the
full evaluation. -/
def evaluate (rows : List Record) (center : String)
    (absThr pctThr zThr : ℚ) (top_n : Nat) : EvalResult :=
  let cohort := centerRows rows center
  let flagged := evaluateFlagged rows center absThr pctThr zThr
  { top_outliers := (rankSort (rankBefore cohort) flagged).take top_n
    flagged_count := flagged.length
    total_count := cohort.length }

/-- Modelled from the spec: the error taxonomy of §7. -/
inductive MarginError where
  | malformedInput
  | invalidParameter
  | notFound
  | persistence
deriving DecidableEq, Repr

/-- Modelled from the spec: the artifact of §4.2/§6 — the full set of
evaluated rows with their boolean flag, written on success. -/
def renderArtifact (rows : List Record) (center : String)
    (absThr pctThr zThr : ℚ) : List (Record × Bool) :=
  let cohort := centerRows rows center
  cohort.map (fun r => (r, flagOf cohort r absThr pctThr zThr))

/-- Modelled from the spec: the `outliers` entry point of §4.2/§7 —
parameter-domain validation first (`top_n ≤ 0` and negative thresholds
are `InvalidParameterError`, detected before any row processing), then
evaluation plus the written artifact. -/
def outliers (rows : List Record) (center : String)
    (absThr pctThr zThr : ℚ) (top_n : ℤ) :
    Except MarginError (EvalResult × List (Record × Bool)) :=
  if top_n ≤ 0 then .error .invalidParameter
  else if absThr < 0 ∨ pctThr < 0 ∨ zThr < 0 then .error .invalidParameter
  else .ok (evaluate rows center absThr pctThr zThr top_n.toNat,
            renderArtifact rows center absThr pctThr zThr)

/-- One line of an Explanation's rationale (§4.3): the computed value of
the rule's metric (`none` when undefined; the z line carries the squared
carrier), the configured threshold, and whether that rule alone would
have flagged the row. -/
structure RuleLine where
  value : Option ℚ
  threshold : ℚ
  fired : Bool
deriving DecidableEq, Repr

/-- Modelled from the spec: the Explanation of §3/§4.3 — the located
row's metrics plus the per-rule rationale and the final flag state. -/
structure Explanation where
  header : String
  absLine : RuleLine
  pctLine : RuleLine
  zLine : RuleLine
  flag : Bool
deriving DecidableEq, Repr

/-- Modelled from the spec: `explain` of §4.3 — locate the unique row
matching (center, header) (`NotFoundError` on zero or several matches),
recompute the three metrics over the same cohort, report per rule the
computed value, the threshold and whether that rule alone fires, and the
overall flag as the OR of the three.  The rule lines are written out
independently of the Evaluator's `flagOf`, as §4.3 describes them. -/
def explain (rows : List Record) (center header : String)
    (absThr pctThr zThr : ℚ) : Except MarginError Explanation :=
  let cohort := centerRows rows center
  match cohort.filter (fun r => r.header == header) with
  | [r] =>
      let dv := delta r
      let pv := pctChange r
      let zv := zSq cohort r
      let aFired : Bool := decide (|dv| ≥ absThr)
      let pFired : Bool := match pv with
        | some v => decide (|v| ≥ pctThr)
        | none => false
      let zFired : Bool := match zv with
        | some q => decide (q ≥ zThr ^ 2)
        | none => false
      .ok { header := r.header
            absLine := { value := some |dv|, threshold := absThr
                         fired := aFired }
            pctLine := { value := pv, threshold := pctThr, fired := pFired }
            zLine := { value := zv, threshold := zThr, fired := zFired }
            flag := aFired || pFired || zFired }
  | _ => .error .notFound

end Engine

namespace Engine

/-- Record constructor for the §8 scenario cohort (center `"NPM"`). -/
def mkNPM (h : String) (a b : ℚ) : Record := ⟨"NPM", h, a, b⟩

/-- Scenario row A: delta 8, cohort z-score 4.0 (zSq 16). -/
def scenA : Record := mkNPM "A" 1000 1008

/-- Scenario row B: delta 5, pct_change 5, cohort z-score 2.5 (zSq 25/4). -/
def scenB : Record := mkNPM "B" 1 6

/-- The §8 `top_n = 1` scenario cohort: 26 rows of center `"NPM"` whose
deltas are `[8, 5, -1 ×14, 1, 0 ×9]`, so the cohort delta mean is 0 and
the population variance is 104/26 = 4; row A then has z-score 8/2 = 4.0
and row B has z-score 5/2 = 2.5.  With thresholds
`abs = 1000000, pct = 4, z = 3` exactly rows A (via the z rule) and B
(via the pct rule, `5/1 ≥ 4`) are flagged. -/
def scenRows : List Record :=
  [scenA, scenB,
   mkNPM "C01" 1000 999, mkNPM "C02" 1000 999, mkNPM "C03" 1000 999,
   mkNPM "C04" 1000 999, mkNPM "C05" 1000 999, mkNPM "C06" 1000 999,
   mkNPM "C07" 1000 999, mkNPM "C08" 1000 999, mkNPM "C09" 1000 999,
   mkNPM "C10" 1000 999, mkNPM "C11" 1000 999, mkNPM "C12" 1000 999,
   mkNPM "C13" 1000 999, mkNPM "C14" 1000 999,
   mkNPM "D" 1000 1001,
   mkNPM "E1" 1000 1000, mkNPM "E2" 1000 1000, mkNPM "E3" 1000 1000,
   mkNPM "E4" 1000 1000, mkNPM "E5" 1000 1000, mkNPM "E6" 1000 1000,
   mkNPM "E7" 1000 1000, mkNPM "E8" 1000 1000, mkNPM "E9" 1000 1000]

/-- A two-row cohort used to instantiate the explain/evaluate
consistency theorem: delta 100 against a peer with delta 0. -/
def wRow1 : Record := ⟨"NPM", "A", 100, 200⟩

/-- The peer row of `wRow1`'s cohort. -/
def wRow2 : Record := ⟨"NPM", "B", 100, 100⟩

/-- The two-row witness cohort. -/
def wRows : List Record := [wRow1, wRow2]

/-- The explanation `explain wRows "NPM" "A" 50 10 3` produces: cohort
delta mean 50, population variance 2500, so `wRow1` has zSq 1; the abs
rule fires (`|100| ≥ 50`), the pct rule does not (`|1| < 10`), the z rule
does not (`1 < 3^2`). -/
def wExpl : Explanation :=
  { header := "A"
    absLine := { value := some 100, threshold := 50, fired := true }
    pctLine := { value := some 1, threshold := 10, fired := false }
    zLine := { value := some 1, threshold := 3, fired := false }
    flag := true }

/-- A record with `applied_t1 = 0` (delta 7): `pct_change` is undefined
for it. -/
def zeroRow : Record := ⟨"NPM", "Z0", 0, 7⟩

/-- A peer for `zeroRow`, giving its cohort two members. -/
def zeroPeer : Record := ⟨"NPM", "Z1", 10, 10⟩

end Engine

namespace Route

/-- A stale three-row artifact, two of whose rows carry a truthy FLAG
token. -/
def staleArtifact : List CsvRow :=
  [[("HEADER", "A1"), ("FLAG", "true")],
   [("HEADER", "A2"), ("FLAG", "no")],
   [("HEADER", "A3"), ("FLAG", "1")]]

/-- An in-memory bot result that reports zero flagged rows, five total
rows and an empty top-outliers view. -/
def emptyDictResult : BotResult := .dict 0 5 "2024-06-01" []

/-- A one-file filesystem: only `out/data.csv` exists. -/
def demoFs (p : String) : Bool := p == "out/data.csv"

end Route

namespace Engine

lemma scen_center : centerRows scenRows "NPM" = scenRows := rfl

lemma scen_mean : mean (cohortDeltas scenRows) = 0 := by
  norm_num [cohortDeltas, scenRows, scenA, scenB, mkNPM, delta, mean]

lemma scen_var : popVar (cohortDeltas scenRows) = 4 := by
  norm_num [popVar, cohortDeltas, scenRows, scenA, scenB, mkNPM, delta, mean]

lemma scen_len : (cohortDeltas scenRows).length = 26 := rfl

lemma scen_zSq (r : Record) : zSq scenRows r = some ((delta r) ^ 2 / 4) := by
  rw [zSq]
  simp only [scen_mean, scen_var, scen_len]
  norm_num

lemma scen_flag_A : flagOf scenRows scenA 1000000 4 3 = true := by
  simp only [flagOf, zRule, scen_zSq, scenA, mkNPM]
  norm_num [delta]

lemma scen_flag_B : flagOf scenRows scenB 1000000 4 3 = true := by
  simp only [flagOf, pctRule, pctChange, scenB, mkNPM]
  norm_num [delta]

lemma scen_flag_C (h : String) :
    flagOf scenRows (mkNPM h 1000 999) 1000000 4 3 = false := by
  simp only [flagOf, absRule, pctRule, pctChange, zRule, scen_zSq, mkNPM]
  norm_num [delta, abs_of_pos, abs_of_nonneg, abs_of_nonpos]

lemma scen_flag_D : flagOf scenRows (mkNPM "D" 1000 1001) 1000000 4 3 = false := by
  simp only [flagOf, absRule, pctRule, pctChange, zRule, scen_zSq, mkNPM]
  norm_num [delta, abs_of_pos, abs_of_nonneg, abs_of_nonpos]

lemma scen_flag_E (h : String) :
    flagOf scenRows (mkNPM h 1000 1000) 1000000 4 3 = false := by
  simp only [flagOf, absRule, pctRule, pctChange, zRule, scen_zSq, mkNPM]
  norm_num [delta, abs_of_pos, abs_of_nonneg, abs_of_nonpos]

lemma scen_flagged :
    evaluateFlagged scenRows "NPM" 1000000 4 3 = [scenA, scenB] := by
  rw [evaluateFlagged]
  simp only [scen_center]
  conv_lhs =>
    arg 2
    rw [scenRows]
  simp only [List.filter_cons, scen_flag_A, scen_flag_B, scen_flag_C,
    scen_flag_D, scen_flag_E]
  simp [List.filter]

lemma scen_eval :
    evaluate scenRows "NPM" 1000000 4 3 1 =
      { top_outliers := [scenA], flagged_count := 2, total_count := 26 } := by
  rw [evaluate]
  simp only [scen_center, scen_flagged]
  have hins : rankInsert (rankBefore scenRows) scenA [scenB] = [scenA, scenB] := by
    rw [rankInsert]
    have hb : rankBefore scenRows scenB scenA = false := by
      simp only [rankBefore, scen_zSq, scenA, scenB, mkNPM]
      norm_num [delta]
    simp [hb]
  have h1 : rankInsert (rankBefore scenRows) scenB [] = [scenB] := rfl
  have hlen : scenRows.length = 26 := rfl
  simp only [rankSort, h1, hins, hlen]
  rfl

lemma scen_zSq_A : zSq scenRows scenA = some 16 := by
  rw [scen_zSq]
  norm_num [delta, scenA, mkNPM]

lemma scen_zSq_B : zSq scenRows scenB = some (25 / 4) := by
  rw [scen_zSq]
  norm_num [delta, scenB, mkNPM]

end Engine

/-- Claim C4: for every evaluation, `top_outliers` is the first `top_n`
ranked flagged rows while `flagged_count` and `total_count` are computed
over the full untruncated evaluation; in particular, on the 26-row
scenario cohort where exactly rows A and B are flagged with z-scores 4.0
(zSq 16) and 2.5 (zSq 25/4), `top_n = 1` retains only row A in the view
while `flagged_count = 2`. -/
theorem evaluate_truncates_view_keeps_full_counts :
    (∀ (rows : List Engine.Record) (center : String) (a p z : ℚ) (n : Nat),
      (Engine.evaluate rows center a p z n).top_outliers =
        (Engine.rankSort (Engine.rankBefore (Engine.centerRows rows center))
          (Engine.evaluateFlagged rows center a p z)).take n ∧
      (Engine.evaluate rows center a p z n).flagged_count =
        (Engine.evaluateFlagged rows center a p z).length ∧
      (Engine.evaluate rows center a p z n).total_count =
        (Engine.centerRows rows center).length) ∧
    Engine.evaluateFlagged Engine.scenRows "NPM" 1000000 4 3 =
      [Engine.scenA, Engine.scenB] ∧
    Engine.zSq Engine.scenRows Engine.scenA = some 16 ∧
    Engine.zSq Engine.scenRows Engine.scenB = some (25 / 4) ∧
    Engine.evaluate Engine.scenRows "NPM" 1000000 4 3 1 =
      { top_outliers := [Engine.scenA], flagged_count := 2,
        total_count := 26 } := by
  refine ⟨fun rows center a p z n => ⟨rfl, rfl, rfl⟩, ?_, ?_, ?_, ?_⟩
  · exact Engine.scen_flagged
  · exact Engine.scen_zSq_A
  · exact Engine.scen_zSq_B
  · exact Engine.scen_eval

namespace Engine

lemma absRule_iff (r : Record) (a : ℚ) :
    absRule r a = true ↔ a ≤ |delta r| := by
  simp [absRule]

lemma pctRule_iff (r : Record) (p : ℚ) :
    pctRule r p = true ↔ ∃ v, pctChange r = some v ∧ p ≤ |v| := by
  cases h : pctChange r <;> simp [pctRule, h]

lemma zRule_iff (cohort : List Record) (r : Record) (z : ℚ) :
    zRule cohort r z = true ↔ ∃ q, zSq cohort r = some q ∧ z ^ 2 ≤ q := by
  cases h : zSq cohort r <;> simp [zRule, h]

end Engine

/-- Claim C2: for every row and configuration of non-negative thresholds,
the flag equals the logical OR of the three criteria, where a criterion
whose metric is undefined (`pct_change` when `applied_t1 = 0`, z-score
when the cohort has fewer than 2 members or zero variance) contributes
false — it neither causes a flag by itself nor suppresses the others.
The z-score criterion is stated on its exact rational square
(`|z| ≥ z_threshold ↔ zSq ≥ z_threshold^2` for a non-negative
threshold). -/
theorem flag_is_or_of_defined_criteria (cohort : List Engine.Record)
    (r : Engine.Record) (a p z : ℚ)
    (ha : 0 ≤ a) (hp : 0 ≤ p) (hz : 0 ≤ z) :
    Engine.flagOf cohort r a p z = true ↔
      (a ≤ |Engine.delta r| ∨
       (∃ v, Engine.pctChange r = some v ∧ p ≤ |v|) ∨
       (∃ q, Engine.zSq cohort r = some q ∧ z ^ 2 ≤ q)) := by
  simp only [Engine.flagOf, Bool.or_eq_true, Engine.absRule_iff,
    Engine.pctRule_iff, Engine.zRule_iff]
  exact or_assoc

/-- Instance of `flag_is_or_of_defined_criteria` on the two-row witness
cohort with thresholds (5, 10, 3): the flag reduces to the stated
disjunction of defined criteria. -/
theorem flag_is_or_of_defined_criteria_witness :
    (0:ℚ) ≤ 5 ∧ (0:ℚ) ≤ 10 ∧ (0:ℚ) ≤ 3 ∧
    (Engine.flagOf Engine.wRows Engine.wRow1 5 10 3 = true ↔
      ((5:ℚ) ≤ |Engine.delta Engine.wRow1| ∨
       (∃ v, Engine.pctChange Engine.wRow1 = some v ∧ (10:ℚ) ≤ |v|) ∨
       (∃ q, Engine.zSq Engine.wRows Engine.wRow1 = some q ∧
          (3:ℚ) ^ 2 ≤ q))) :=
  ⟨by norm_num, by norm_num, by norm_num,
   flag_is_or_of_defined_criteria Engine.wRows Engine.wRow1 5 10 3
     (by norm_num) (by norm_num) (by norm_num)⟩

/-- Claim C7: a row with `applied_t1 = 0` never produces a division
error — `pct_change` is undefined (`none`) for it — and the row's flag is
exactly the OR of the other two criteria, so it can still be flagged via
the absolute or z-score threshold. -/
theorem zero_prior_never_divides (cohort : List Engine.Record)
    (r : Engine.Record) (a p z : ℚ) (h : r.applied_t1 = 0) :
    Engine.pctChange r = none ∧
    Engine.flagOf cohort r a p z =
      (Engine.absRule r a || Engine.zRule cohort r z) ∧
    (Engine.absRule r a = true → Engine.flagOf cohort r a p z = true) := by
  have hpc : Engine.pctChange r = none := by simp [Engine.pctChange, h]
  refine ⟨hpc, ?_, ?_⟩
  · simp [Engine.flagOf, Engine.pctRule, hpc]
  · intro hA
    simp [Engine.flagOf, hA]

/-- Instance of `zero_prior_never_divides` on `zeroRow` (prior value 0,
delta 7) in a two-row cohort with `abs_threshold = 5`: `pct_change` is
undefined and the row is still flagged through the absolute rule. -/
theorem zero_prior_never_divides_witness :
    Engine.zeroRow.applied_t1 = 0 ∧
    Engine.pctChange Engine.zeroRow = none ∧
    Engine.flagOf [Engine.zeroRow, Engine.zeroPeer] Engine.zeroRow 5 1 3 =
      true :=
  have h := zero_prior_never_divides [Engine.zeroRow, Engine.zeroPeer]
    Engine.zeroRow 5 1 3 rfl
  ⟨rfl, h.1, h.2.2 (by norm_num [Engine.absRule, Engine.delta,
    Engine.zeroRow])⟩

/-- Claim C8: an invocation with `top_n ≤ 0` or any negative threshold
fails with `InvalidParameterError`; the check precedes all row processing,
so the result carries no evaluation and no artifact regardless of the
rows supplied. -/
theorem invalid_params_rejected_before_rows (rows : List Engine.Record)
    (center : String) (a p z : ℚ) (n : ℤ)
    (h : n ≤ 0 ∨ a < 0 ∨ p < 0 ∨ z < 0) :
    Engine.outliers rows center a p z n =
      .error .invalidParameter := by
  by_cases hn : n ≤ 0
  · simp [Engine.outliers, hn]
  · have hd : a < 0 ∨ p < 0 ∨ z < 0 := by tauto
    simp [Engine.outliers, hn, hd]

/-- Instance of `invalid_params_rejected_before_rows`: a negative
absolute threshold is rejected with `InvalidParameterError`. -/
theorem invalid_params_rejected_before_rows_witness :
    Engine.outliers [] "NPM" (-1) 0 0 5 =
      .error .invalidParameter :=
  invalid_params_rejected_before_rows [] "NPM" (-1) 0 0 5
    (Or.inr (Or.inl (by norm_num)))

/-- Claim C3: whenever `explain` succeeds, the flag it reports for the
located row equals the flag `evaluate` assigns to that row under the same
thresholds and cohort — the row is in `evaluate`'s flagged set exactly
when the explanation's flag is true. -/
theorem explain_flag_matches_evaluate (rows : List Engine.Record)
    (center header : String) (a p z : ℚ) (e : Engine.Explanation)
    (h : Engine.explain rows center header a p z = Except.ok e) :
    ∃ r, (Engine.centerRows rows center).filter
        (fun x => x.header == header) = [r] ∧
      e.flag = Engine.flagOf (Engine.centerRows rows center) r a p z ∧
      (e.flag = true ↔ r ∈ Engine.evaluateFlagged rows center a p z) := by
  simp only [Engine.explain] at h
  split at h
  case h_2 => simp at h
  case h_1 r heq =>
    simp only [Except.ok.injEq] at h
    have hflag : e.flag = Engine.flagOf (Engine.centerRows rows center)
        r a p z := by
      rw [← h]
      rfl
    have hrmem : r ∈ Engine.centerRows rows center := by
      have hx : r ∈ (Engine.centerRows rows center).filter
          (fun x => x.header == header) := by
        rw [heq]
        exact List.mem_singleton.mpr rfl
      exact (List.mem_filter.mp hx).1
    refine ⟨r, heq, hflag, ?_⟩
    rw [hflag]
    unfold Engine.evaluateFlagged
    constructor
    · intro hfl
      exact List.mem_filter.mpr ⟨hrmem, hfl⟩
    · intro hmem
      exact (List.mem_filter.mp hmem).2

/-- Instance of `explain_flag_matches_evaluate` on the two-row witness
cohort: `explain` succeeds with `wExpl` (flag true via the absolute
rule), and that flag agrees with `evaluate`'s flagged set. -/
theorem explain_flag_matches_evaluate_witness :
    Engine.explain Engine.wRows "NPM" "A" 50 10 3 = Except.ok Engine.wExpl ∧
    ∃ r, (Engine.centerRows Engine.wRows "NPM").filter
        (fun x => x.header == "A") = [r] ∧
      Engine.wExpl.flag =
        Engine.flagOf (Engine.centerRows Engine.wRows "NPM") r 50 10 3 ∧
      (Engine.wExpl.flag = true ↔
        r ∈ Engine.evaluateFlagged Engine.wRows "NPM" 50 10 3) :=
  have hEval : Engine.explain Engine.wRows "NPM" "A" 50 10 3 =
      Except.ok Engine.wExpl := by
    have hBA : ("B" == "A") = false := rfl
    norm_num [Engine.explain, Engine.centerRows, Engine.wRows, Engine.wRow1,
      Engine.wRow2, Engine.delta, Engine.pctChange, Engine.zSq,
      Engine.cohortDeltas, Engine.mean, Engine.popVar, Engine.wExpl,
      List.filter, hBA, abs_of_pos, abs_of_nonneg]
  ⟨hEval, explain_flag_matches_evaluate Engine.wRows "NPM" "A" 50 10 3
    Engine.wExpl hEval⟩

/-- Claim C9: the legacy `/outlier` endpoint returns exactly the same
response as `/outlierv1` for every request — its body is a bare
delegation with no transformation. -/
theorem legacy_outlier_delegates (ctx : Route.Ctx) :
    Route.outlier ctx = Route.outlierv1 ctx := rfl

/-- Claim C1: the response is NOT derived solely from the in-memory
result.  With an in-memory result reporting `flagged_count = 0` and an
empty `top_outliers` view, the handler re-parses the persisted artifact:
its flagged-row count (2 here) and parsed rows replace the in-memory
values, so the response changes with the artifact's content. -/
theorem artifact_repopulates_response :
    (Route.buildResponse Route.emptyDictResult
        (some Route.staleArtifact) 20).flagged_count = 2 ∧
    (Route.buildResponse Route.emptyDictResult none 20).flagged_count = 0 ∧
    (Route.buildResponse Route.emptyDictResult
        (some Route.staleArtifact) 20).top_outliers ≠ [] ∧
    (Route.buildResponse Route.emptyDictResult none 20).top_outliers = [] := by
  decide

/-- Claim C5: a FLAG token parses to true exactly when it equals one of
`"true"`, `"1"`, `"yes"`, `"✓"` up to lowercasing; every other token
parses to false. -/
theorem flag_token_truthy_iff (tok : String) :
    Route.parseFlagTok tok = true ↔
      ∃ t ∈ Route.truthyTokens, Route.pyLower tok = Route.pyLower t := by
  have h1 : Route.pyLower "true" = "true" := rfl
  have h2 : Route.pyLower "1" = "1" := rfl
  have h3 : Route.pyLower "yes" = "yes" := rfl
  have h4 : Route.pyLower "✓" = "✓" := rfl
  simp [Route.parseFlagTok, Route.truthyTokens, h1, h2, h3, h4]

/-- Claim C6, counterexample: alias resolution is NOT case-insensitive.
The uppercase spelling `DELTA` (a case variant of the accepted alias
`delta`) does not resolve the delta field, and the mixed-case `Header`
does not resolve the header field, so equal-up-to-case sources yield
different normalized rows. -/
theorem alias_case_sensitivity_counterexample :
    Route.parseOutlierRow [("DELTA", "5")] ≠
      Route.parseOutlierRow [("delta", "5")] ∧
    (Route.parseOutlierRow [("DELTA", "5")]).delta = none ∧
    (Route.parseOutlierRow [("delta", "5")]).delta = some "5" ∧
    (Route.parseOutlierRow [("Header", "A1")]).header = "N/A" := by
  decide

/-- Claim C6 as amended: each canonical field is resolved by exact
(case-sensitive) key lookup from its two-spelling alias set, so a source
using either exact alias spelling yields the same normalized row; the
FLAG value itself is parsed case-insensitively from the truthy set. -/
theorem alias_pairs_resolve_identically (v : String) (hv : v ≠ "") :
    Route.parseOutlierRow [("HEADER", v)] =
      Route.parseOutlierRow [("header_account_id", v)] ∧
    (Route.parseOutlierRow [("HEADER", v)]).header = v ∧
    Route.parseOutlierRow [("Δ", v)] =
      Route.parseOutlierRow [("delta", v)] ∧
    (Route.parseOutlierRow [("Δ", v)]).delta = some v ∧
    Route.parseOutlierRow [("%Δ", v)] =
      Route.parseOutlierRow [("pct_change", v)] ∧
    (Route.parseOutlierRow [("%Δ", v)]).pct_change = some v ∧
    Route.parseOutlierRow [("Z", v)] =
      Route.parseOutlierRow [("z_score", v)] ∧
    (Route.parseOutlierRow [("Z", v)]).z_score = some v ∧
    Route.parseOutlierRow [("FLAG", v)] =
      Route.parseOutlierRow [("flag", v)] ∧
    (Route.parseOutlierRow [("FLAG", v)]).flag = Route.parseFlagTok v := by
  have hv' : (v == "") = false := by
    simpa using hv
  refine ⟨?_, ?_, ?_, ?_, ?_, ?_, ?_, ?_, ?_, ?_⟩ <;>
    simp [Route.parseOutlierRow, Route.resolve1, Route.resolve2,
      Route.rowGet, Route.rowGetD, List.find?, Option.orElse, hv']

/-- Instance of `alias_pairs_resolve_identically` at the token `"5"`. -/
theorem alias_pairs_resolve_identically_witness :
    ("5" : String) ≠ "" ∧
    (Route.parseOutlierRow [("Δ", "5")] =
        Route.parseOutlierRow [("delta", "5")] ∧
      (Route.parseOutlierRow [("Δ", "5")]).delta = some "5") :=
  have h := alias_pairs_resolve_identically "5" (by decide)
  ⟨by decide, h.2.2.1, h.2.2.2.1⟩

namespace Route

lemma sendFromDirectory_file_inv (fs : String → Bool) (dir name pth : String)
    (h : sendFromDirectory fs dir name = .file pth) :
    pth = dir ++ "/" ++ name ∧ name ≠ "" ∧ name ≠ "." ∧ name ≠ ".." ∧
      ¬ name.data.contains '/' := by
  unfold sendFromDirectory at h
  by_cases hg : name = "" ∨ name = "." ∨ name = ".." ∨
      name.data.contains '/'
  · rw [if_pos hg] at h
    exact DownloadReply.noConfusion h
  · rw [if_neg hg] at h
    by_cases hfs : fs (dir ++ "/" ++ name) = true
    · rw [if_pos hfs] at h
      simp only [DownloadReply.file.injEq] at h
      push_neg at hg
      exact ⟨h.symm, hg.1, hg.2.1, hg.2.2.1, by simpa using hg.2.2.2⟩
    · rw [if_neg hfs] at h
      exact DownloadReply.noConfusion h

end Route

/-- Claim C10: the download endpoint only ever serves the basename of
the supplied name resolved inside the `out` directory — a path-traversal
input cannot cause a file outside `out` to be served — and a missing
file yields the 404 reply rather than an exception. -/
theorem download_serves_only_out_dir (fs : String → Bool)
    (filename : String) :
    (∀ pth, Route.download_file fs filename = .file pth →
       Route.insideOutDir pth) ∧
    (fs ("out" ++ "/" ++ Route.basename filename) = false →
       Route.download_file fs filename = .notFound) := by
  constructor
  · intro pth hserve
    unfold Route.download_file at hserve
    by_cases hex : fs ("out" ++ "/" ++ Route.basename filename) = true
    · rw [if_neg (not_not_intro hex)] at hserve
      obtain ⟨hp, h1, h2, h3, h4⟩ :=
        Route.sendFromDirectory_file_inv fs "out" (Route.basename filename)
          pth hserve
      exact ⟨Route.basename filename, hp, h1, h2, h3, h4⟩
    · rw [if_pos hex] at hserve
      exact Route.DownloadReply.noConfusion hserve
  · intro hmiss
    unfold Route.download_file
    have hneg : ¬ (fs ("out" ++ "/" ++ Route.basename filename) = true) := by
      intro hc
      rw [hmiss] at hc
      exact Bool.noConfusion hc
    rw [if_pos hneg]

/-- Instance of `download_serves_only_out_dir` on a one-file filesystem:
a traversal input whose basename is absent gets the 404 reply, and a
traversal input whose basename exists is served from inside `out`. -/
theorem download_serves_only_out_dir_witness :
    Route.download_file Route.demoFs "nested/../../etc/passwd" =
      .notFound ∧
    Route.download_file Route.demoFs "evil/../data.csv" =
      .file "out/data.csv" ∧
    Route.insideOutDir "out/data.csv" :=
  have h2 : Route.download_file Route.demoFs "evil/../data.csv" =
      .file "out/data.csv" := by decide
  ⟨(download_serves_only_out_dir Route.demoFs "nested/../../etc/passwd").2
      (by decide),
   h2,
   (download_serves_only_out_dir Route.demoFs "evil/../data.csv").1
     "out/data.csv" h2⟩
